import Mathlib

/-!
# win_thread.h: a shallow embedding

The header `src/win_thread.h` wraps Win32 thread creation in a move-only handle class
(`win::thread`) and offers a few calling-thread utilities (`win::this_thread`).

Modelling conventions.

* `DWORD`, `HANDLE` and `LPVOID` are natural numbers; `NULL` is `0`.  Conversions between C++
  integer types are written out (`toDWORD`, `toInt`).
* The operating system is an oracle (`OS`) that fixes what each primitive returns.  Every call of
  a primitive is appended to the trace of the `World`, which also holds the calling thread's
  last-error value.
* A C++ exception is the `Except.error` component of an operation's result.
* `std::chrono::duration<Rep, Period>` is modelled for the integral `Rep` of 8 to 64 bits, with
  the fixed-width arithmetic of `duration_cast` and `operator-`: unsigned arithmetic wraps
  around, signed overflow is undefined behaviour and gives `none`, as does an ill-formed
  `std::ratio`.  Floating-point representations are not modelled.
-/

namespace win

/-! ## Machine types and Win32 constants -/

abbrev DWORD := Nat
abbrev HANDLE := Nat
abbrev LPVOID := Nat

/-- The null handle. -/
def NULL : HANDLE := 0

/-- Win32 `INFINITE` time-out, `0xFFFFFFFF`. -/
def INFINITE : DWORD := 0xFFFFFFFF
/-- Win32 `WAIT_OBJECT_0`. -/
def WAIT_OBJECT_0 : DWORD := 0
/-- Win32 `WAIT_ABANDONED`. -/
def WAIT_ABANDONED : DWORD := 0x80
/-- Win32 `WAIT_TIMEOUT`. -/
def WAIT_TIMEOUT : DWORD := 0x102
/-- Win32 `WAIT_FAILED`, `(DWORD)0xFFFFFFFF`. -/
def WAIT_FAILED : DWORD := 0xFFFFFFFF

/-- Implicit conversion of a signed 64-bit value to `DWORD` (reduction modulo `2^32`), as in
`Sleep(duration.count())`. -/
def toDWORD (n : Int) : DWORD := (n % 2 ^ 32).toNat

/-- Implicit conversion of a `DWORD` to `int`, as in `std::system_error(GetLastError(), ...)`. -/
def toInt (d : DWORD) : Int :=
  if d % 2 ^ 32 < 2 ^ 31 then ((d % 2 ^ 32 : Nat) : Int) else ((d % 2 ^ 32 : Nat) : Int) - 2 ^ 32

/-! ## Errors -/

/-- The two `std::errc` enumerators the header uses. -/
inductive errc where
  | no_such_process
  | resource_deadlock_would_occur
  deriving DecidableEq, Repr

/-- Numeric value of the enumerator (`ESRCH`, `EDEADLK` of the Microsoft C runtime). -/
def errc.value : errc → Int
  | .no_such_process => 3
  | .resource_deadlock_would_occur => 36

/-- A `std::error_code`; every error code of the header is in `std::generic_category()`. -/
structure error_code where
  value : Int
  deriving DecidableEq, Repr

/-- The function `std::make_error_code(std::errc)`. -/
def make_error_code (e : errc) : error_code := ⟨e.value⟩

/-- The exceptions the header throws. -/
inductive Exception where
  | system_error (ec : error_code)
  | runtime_error (what : String)
  deriving DecidableEq, Repr

/-! ## The operating system -/

/-- One observable step: a call of an OS primitive, or the allocation or destruction of a closure
wrapper on the heap. -/
inductive Event where
  | Sleep (dwMilliseconds : DWORD)
  | GetCurrentThreadId
  | GetThreadId (h : HANDLE)
  | GetLastError
  | CreateThread (lpParameter : LPVOID)
  | TerminateThread (h : HANDLE) (dwExitCode : DWORD)
  | CloseHandle (h : HANDLE)
  | WaitForSingleObject (h : HANDLE) (dwMilliseconds : DWORD)
  | new_wrapper (p : LPVOID)
  | delete_wrapper (p : LPVOID)
  deriving DecidableEq, Repr

/-- What the primitives answer.  A failed `CreateThread` returns `NULL` and sets the last-error
value to `createError`; `WaitForSingleObject` returning `WAIT_FAILED` sets it to `waitError`. -/
structure OS where
  GetCurrentThreadId : DWORD
  GetThreadId : HANDLE → DWORD
  CreateThread : LPVOID → HANDLE
  createError : DWORD
  WaitForSingleObject : HANDLE → DWORD
  waitError : HANDLE → DWORD
  alloc : LPVOID

/-- The calling thread's view: its last-error value and the steps taken so far. -/
structure World where
  lastError : DWORD
  trace : List Event
  deriving DecidableEq, Repr

/-- Append one step to the trace. -/
def World.log (w : World) (e : Event) : World := { w with trace := w.trace ++ [e] }

/-- Overwrite the last-error value (`SetLastError`, done inside a failing primitive). -/
def World.setLastError (w : World) (e : DWORD) : World := { w with lastError := e }

/-- The primitive `GetLastError()`. -/
def GetLastError (w : World) : DWORD × World := (w.lastError, w.log Event.GetLastError)

/-- The primitive `GetThreadId(h)`. -/
def GetThreadId (os : OS) (h : HANDLE) (w : World) : DWORD × World :=
  (os.GetThreadId h, w.log (Event.GetThreadId h))

/-- The primitive `GetCurrentThreadId()`. -/
def GetCurrentThreadId (os : OS) (w : World) : DWORD × World :=
  (os.GetCurrentThreadId, w.log Event.GetCurrentThreadId)

/-- The primitive `Sleep(ms)`. -/
def Sleep (ms : DWORD) (w : World) : World := w.log (Event.Sleep ms)

/-- The primitive `CloseHandle(h)`; the header ignores its result. -/
def CloseHandle (h : HANDLE) (w : World) : World := w.log (Event.CloseHandle h)

/-- The primitive `TerminateThread(h, code)`; the header ignores its result. -/
def TerminateThread (h : HANDLE) (code : DWORD) (w : World) : World :=
  w.log (Event.TerminateThread h code)

/-- The primitive `WaitForSingleObject(h, ms)`. -/
def WaitForSingleObject (os : OS) (h : HANDLE) (ms : DWORD) (w : World) : DWORD × World :=
  let r := os.WaitForSingleObject h
  let w1 := w.log (Event.WaitForSingleObject h ms)
  (r, if r = WAIT_FAILED then w1.setLastError (os.waitError h) else w1)

/-- The primitive `CreateThread(NULL, 0, start_routine, p, 0, NULL)`. -/
def CreateThread (os : OS) (p : LPVOID) (w : World) : HANDLE × World :=
  let h := os.CreateThread p
  let w1 := w.log (Event.CreateThread p)
  (h, if h = NULL then w1.setLastError os.createError else w1)

/-! ## `win::this_thread` -/

namespace this_thread

/-- The integral types a `Rep` can be: signed and unsigned integers of 8, 16, 32 and 64 bits
(`long long` is `int64`, `unsigned long long` is `uint64`, `std::intmax_t` is `int64`). -/
inductive Rep where
  | int8 | uint8 | int16 | uint16 | int32 | uint32 | int64 | uint64
  deriving DecidableEq, Repr

/-- Whether the type is signed. -/
def Rep.is_signed : Rep → Bool
  | .int8 | .int16 | .int32 | .int64 => true
  | .uint8 | .uint16 | .uint32 | .uint64 => false

/-- The width of the type. -/
def Rep.bits : Rep → Nat
  | .int8 | .uint8 => 8
  | .int16 | .uint16 => 16
  | .int32 | .uint32 => 32
  | .int64 | .uint64 => 64

/-- The least value of the type. -/
def Rep.min (r : Rep) : Int := if r.is_signed then -(2 ^ (r.bits - 1)) else 0

/-- The greatest value of the type. -/
def Rep.max (r : Rep) : Int := if r.is_signed then 2 ^ (r.bits - 1) - 1 else 2 ^ r.bits - 1

/-- The type can represent the value. -/
def Rep.holds (r : Rep) (x : Int) : Prop := r.min ≤ x ∧ x ≤ r.max

instance (r : Rep) (x : Int) : Decidable (r.holds x) :=
  inferInstanceAs (Decidable (r.min ≤ x ∧ x ≤ r.max))

/-- Conversion `static_cast<r>(x)` of an integer value: reduction modulo `2^bits` into the range
of the type (two's complement for the signed types). -/
def Rep.cast (r : Rep) (x : Int) : Int := (x - r.min) % 2 ^ r.bits + r.min

/-- The result of an arithmetic operation carried out in the type `r` whose exact result is `x`:
unsigned arithmetic wraps around, signed overflow is undefined behaviour (`none`). -/
def Rep.arith (r : Rep) (x : Int) : Option Int :=
  if r.is_signed then (if r.holds x then some x else none) else some (r.cast x)

/-- Integral promotion: a type narrower than `int` becomes `int`. -/
def Rep.promote : Rep → Rep
  | .int8 | .uint8 | .int16 | .uint16 => .int32
  | r => r

/-- The type `std::common_type_t<a, b>` of two integral types: the type itself when they are the
same, and the result of the usual arithmetic conversions otherwise. -/
def common_type (a b : Rep) : Rep :=
  if a = b then a
  else
    let x := a.promote
    let y := b.promote
    if x.is_signed = y.is_signed then (if y.bits ≤ x.bits then x else y)
    else if x.is_signed then (if x.bits ≤ y.bits then y else x)
    else (if y.bits ≤ x.bits then x else y)

/-- A `std::ratio` of positive terms, given by its members `num` and `den`, which the library
keeps in lowest terms. -/
structure ratio where
  num : Nat
  den : Nat
  deriving DecidableEq, Repr

/-- The constant `INTMAX_MAX`. -/
def INTMAX_MAX : Nat := 2 ^ 63 - 1

/-- The ratio `std::milli`. -/
def milli : ratio := ⟨1, 1000⟩

/-- The ratio `std::micro`. -/
def micro : ratio := ⟨1, 1000000⟩

/-- The terms of the ratio are positive, fit `std::intmax_t` and are in lowest terms. -/
def ratio.wf (r : ratio) : Prop :=
  0 < r.num ∧ r.num ≤ INTMAX_MAX ∧ 0 < r.den ∧ r.den ≤ INTMAX_MAX ∧ Nat.gcd r.num r.den = 1

instance (r : ratio) : Decidable r.wf :=
  inferInstanceAs (Decidable
    (0 < r.num ∧ r.num ≤ INTMAX_MAX ∧ 0 < r.den ∧ r.den ≤ INTMAX_MAX ∧ Nat.gcd r.num r.den = 1))

/-- The type `std::ratio_divide<r1, r2>`: the quotient in lowest terms.  The program is ill-formed
(`none`) when a term of the quotient does not fit `std::intmax_t`. -/
def ratio_divide (r1 r2 : ratio) : Option ratio :=
  let n := r1.num * r2.den
  let d := r1.den * r2.num
  let g := Nat.gcd n d
  if d = 0 ∨ INTMAX_MAX < n / g ∨ INTMAX_MAX < d / g then none else some ⟨n / g, d / g⟩

/-- A `std::chrono::duration<Rep, Period>` of integral representation; the period is in
seconds. -/
structure duration where
  rep : Rep
  period : ratio
  count : Int
  deriving DecidableEq, Repr

/-- A value of the type: the period is a ratio of positive terms and the representation holds
the count. -/
def duration.wf (d : duration) : Prop := d.period.wf ∧ d.rep.holds d.count

instance (d : duration) : Decidable d.wf :=
  inferInstanceAs (Decidable (d.period.wf ∧ d.rep.holds d.count))

/-- The type `CR = std::common_type_t<ToRep, Rep, std::intmax_t>` in which `duration_cast`
computes. -/
def duration_cast.CR (to_rep rep : Rep) : Rep := common_type (common_type to_rep rep) Rep.int64

/-- The function `std::chrono::duration_cast<duration<to_rep, to_period>>`, in the four cases
of the C++ standard: with `CF = ratio_divide<Period, to_period>`, the count is converted to
`CR`, multiplied by `CF::num` and divided by `CF::den` (division truncates toward zero) in the
arithmetic of `CR`, and the result is converted to `to_rep`. -/
def duration_cast (to_rep : Rep) (to_period : ratio) (d : duration) : Option duration :=
  match ratio_divide d.period to_period with
  | none => none
  | some cf =>
    let cr := duration_cast.CR to_rep d.rep
    let c := cr.cast d.count
    if cf.num = 1 ∧ cf.den = 1 then
      some ⟨to_rep, to_period, to_rep.cast d.count⟩
    else if cf.den = 1 then
      (cr.arith (c * (cf.num : Int))).map fun x => ⟨to_rep, to_period, to_rep.cast x⟩
    else if cf.num = 1 then
      some ⟨to_rep, to_period, to_rep.cast (Int.tdiv c (cf.den : Int))⟩
    else
      (cr.arith (c * (cf.num : Int))).map fun x =>
        ⟨to_rep, to_period, to_rep.cast (Int.tdiv x (cf.den : Int))⟩

/-- Conversion `std::chrono::duration_cast<std::chrono::milliseconds>`; `milliseconds` is
`duration<long long, std::milli>`. -/
def to_milliseconds (d : duration) : Option duration := duration_cast Rep.int64 milli d

/-- The function `win::this_thread::get_id`. -/
def get_id (os : OS) (w : World) : DWORD × World := GetCurrentThreadId os w

/-- The function `win::this_thread::sleep_for`.  The result is `none` when the conversion of the
duration is ill-formed or has undefined behaviour. -/
def sleep_for (sleep_duration : duration) (w : World) :
    Option (Except Exception Unit × World) :=
  match to_milliseconds sleep_duration with
  | none => none
  | some d =>
    if d.count ≥ 0 then
      some (Except.ok (), Sleep (toDWORD d.count) w)
    else
      some (Except.ok (), Sleep 0 w)

/-- The length of a duration in milliseconds, as an exact rational number. -/
def duration.ms (d : duration) : ℚ :=
  (d.count : ℚ) * (d.period.num : ℚ) * 1000 / (d.period.den : ℚ)

end this_thread

/-! ## `win::thread::wrapper` -/

/-- A callable type `Fn` together with the argument types `Ts...`, seen through
`std::invoke_result_t<Fn, Ts...>`: either it returns `void`, or it returns a value.  The callable
acts on a user state `σ`. -/
inductive Fn (Ts σ : Type) where
  | returns_void (f : Ts → σ → σ)
  | returns_value (f : Ts → σ → Int × σ)

/-- The class `win::thread::wrapper<Fn, Ts...>`.  Besides the two data members it carries the
implicitly defined destructor, which runs the destructors of `arguments_` and `function_` (user
code) and is modelled by what it does to the calling thread's last-error value. -/
structure wrapper (Ts σ : Type) where
  function_ : Fn Ts σ
  arguments_ : Ts
  destructor : DWORD → DWORD

/-- What the thread entry point does, in order. -/
inductive wrapper.Step (Ts : Type) where
  | apply (arguments : Ts)
  | destroy
  deriving DecidableEq, Repr

/-- The execution context of the spawned thread: the user state and the steps taken so far. -/
structure wrapper.Context (Ts σ : Type) where
  user : σ
  steps : List (wrapper.Step Ts)

/-- The call `std::apply(pw->function_, pw->arguments_)` of a callable returning `void`. -/
def wrapper.apply_void {Ts σ : Type} (f : Ts → σ → σ) (arguments : Ts)
    (c : wrapper.Context Ts σ) : wrapper.Context Ts σ :=
  ⟨f arguments c.user, c.steps ++ [wrapper.Step.apply arguments]⟩

/-- The destructor of `std::unique_ptr<wrapper>`: deletes the wrapper it owns. -/
def wrapper.unique_ptr_dtor {Ts σ : Type} (c : wrapper.Context Ts σ) : wrapper.Context Ts σ :=
  ⟨c.user, c.steps ++ [wrapper.Step.destroy]⟩

/-- The function `win::thread::wrapper<Fn, Ts...>::start_routine`, given the wrapper that
`lpThreadParameter` points to.  The two cases are the two branches of the `if constexpr` on
`std::is_same_v<std::invoke_result_t<Fn, Ts...>, void>`.  In the first branch the callable is
applied, the status code 0 is returned, and `pw` destroys the wrapper when the function is left.
The second branch is `return std::apply(t.function_, t.arguments_);`, where no `t` is declared:
for a callable that returns a value the function is ill-formed and there is no entry point
(`none`). -/
def wrapper.start_routine {Ts σ : Type} (pw : wrapper Ts σ) (c : wrapper.Context Ts σ) :
    Option (DWORD × wrapper.Context Ts σ) :=
  match pw.function_ with
  | .returns_void f =>
    let c1 := wrapper.apply_void f pw.arguments_ c
    let status : DWORD := 0
    some (status, wrapper.unique_ptr_dtor c1)
  | .returns_value _ => none

/-! ## `win::thread` -/

/-- The class `win::thread`: its only data member is the native handle. -/
structure thread where
  handle_ : HANDLE
  deriving DecidableEq, Repr

/-- What a member function leaves behind: its outcome, the handle object and the world. -/
abbrev Result (α : Type) := Except Exception α × thread × World

/-- The default constructor `thread() noexcept`. -/
def thread.ctor_default : thread := ⟨NULL⟩

/-- The member `joinable`. -/
def thread.joinable (t : thread) : Bool := t.handle_ != NULL

/-- The member `native_handle`. -/
def thread.native_handle (t : thread) : HANDLE := t.handle_

/-- The member `get_id`. -/
def thread.get_id (os : OS) (t : thread) (w : World) : DWORD × World :=
  GetThreadId os t.handle_ w

/-- The spawning constructor `thread(Fn&&, Ts&&...)`.  The wrapper is allocated at the address
`os.alloc`.  A constructor that throws leaves no object behind, so the result is either an
exception or the constructed handle. -/
def thread.ctor_spawn {Ts σ : Type} (os : OS) (wr : wrapper Ts σ) (w : World) :
    Except Exception thread × World :=
  let p := os.alloc
  let w1 := w.log (Event.new_wrapper p)
  let (h, w2) := CreateThread os p w1
  if h = NULL then
    let w3 := (w2.log (Event.delete_wrapper p)).setLastError (wr.destructor w2.lastError)
    let (e, w4) := GetLastError w3
    (Except.error (Exception.system_error ⟨toInt e⟩), w4)
  else
    (Except.ok ⟨h⟩, w2)

/-- The destructor `~thread()`. -/
def thread.dtor (t : thread) (w : World) : Result Unit :=
  if t.joinable then
    let w1 := TerminateThread t.handle_ 0 w
    let w2 := CloseHandle t.handle_ w1
    (Except.ok (), ⟨NULL⟩, w2)
  else
    (Except.ok (), t, w)

/-- The member `swap`: returns the new `*this` and the new `other`. -/
def thread.swap (t other : thread) : thread × thread := (⟨other.handle_⟩, ⟨t.handle_⟩)

/-- The move constructor `thread(thread&&)`: returns the constructed handle and the source. -/
def thread.ctor_move (other : thread) : thread × thread := thread.ctor_default.swap other

/-- The move assignment `operator=(thread&&)`: returns the new `*this` and the new `rhs`. -/
def thread.assign_move (t rhs : thread) : thread × thread := t.swap rhs

/-- The member `detach`. -/
def thread.detach (t : thread) (w : World) : Result Unit :=
  if !t.joinable then
    (Except.error (Exception.system_error (make_error_code errc.no_such_process)), t, w)
  else
    let w1 := CloseHandle t.handle_ w
    (Except.ok (), ⟨NULL⟩, w1)

/-- The member `join`.  The two operands of `get_id() == this_thread::get_id()` are evaluated
left to right. -/
def thread.join (os : OS) (t : thread) (w : World) : Result Unit :=
  if !t.joinable then
    (Except.error (Exception.system_error (make_error_code errc.no_such_process)), t, w)
  else
    let (id, w1) := t.get_id os w
    let (cur, w2) := this_thread.get_id os w1
    if id = cur then
      (Except.error
        (Exception.system_error (make_error_code errc.resource_deadlock_would_occur)), t, w2)
    else
      let (result, w3) := WaitForSingleObject os t.handle_ INFINITE w2
      if result = WAIT_FAILED then
        let (e, w4) := GetLastError w3
        (Except.error (Exception.system_error ⟨toInt e⟩), t, w4)
      else if result = WAIT_OBJECT_0 then
        t.detach w3
      else
        (Except.error (Exception.runtime_error "thread: unexpected join result"), t, w3)

/-! ## Sample inputs -/

/-- An operating system in which the handle's thread is not the caller, thread creation succeeds
and the wait reports clean success. -/
def sampleOS : OS where
  GetCurrentThreadId := 1
  GetThreadId := fun _ => 2
  CreateThread := fun _ => 9
  createError := 0
  WaitForSingleObject := fun _ => WAIT_OBJECT_0
  waitError := fun _ => 0
  alloc := 100

/-- An operating system in which every handle denotes the calling thread. -/
def selfOS : OS where
  GetCurrentThreadId := 2
  GetThreadId := fun _ => 2
  CreateThread := fun _ => 9
  createError := 0
  WaitForSingleObject := fun _ => WAIT_OBJECT_0
  waitError := fun _ => 0
  alloc := 100

/-- An operating system that declines to create threads, reporting
`ERROR_NOT_ENOUGH_MEMORY` (8). -/
def failingOS : OS where
  GetCurrentThreadId := 1
  GetThreadId := fun _ => 2
  CreateThread := fun _ => NULL
  createError := 8
  WaitForSingleObject := fun _ => WAIT_OBJECT_0
  waitError := fun _ => 0
  alloc := 100

/-- A wrapper whose callable has a destructor that ends with the last-error value cleared, for
instance by calling `SetLastError(0)`. -/
def noisyWrapper : wrapper Unit Unit where
  function_ := Fn.returns_void (fun _ s => s)
  arguments_ := ()
  destructor := fun _ => 0

/-- A wrapper around a callable that adds its argument to the state and returns 5. -/
def valueWrapper : wrapper Nat Nat where
  function_ := Fn.returns_value (fun a s => (5, s + a))
  arguments_ := 3
  destructor := fun e => e

/-- An operating system whose wait fails with `ERROR_INVALID_HANDLE` (6). -/
def waitFailedOS : OS where
  GetCurrentThreadId := 1
  GetThreadId := fun _ => 2
  CreateThread := fun _ => 9
  createError := 0
  WaitForSingleObject := fun _ => WAIT_FAILED
  waitError := fun _ => 6
  alloc := 100

/-- An operating system whose wait returns `WAIT_TIMEOUT`. -/
def waitTimeoutOS : OS where
  GetCurrentThreadId := 1
  GetThreadId := fun _ => 2
  CreateThread := fun _ => 9
  createError := 0
  WaitForSingleObject := fun _ => WAIT_TIMEOUT
  waitError := fun _ => 0
  alloc := 100

/-- The world before anything has happened. -/
def World.initial : World := ⟨0, []⟩

end win

/-! # Theorems -/

namespace win

open this_thread

/-! ## The handle state machine -/

/-- C1: on an Empty handle `join()` and `detach()` both fail with
`errc::no_such_process`, whatever the identifier of the calling thread; no OS primitive is called
(the world is unchanged) and the handle is still Empty. -/
theorem C1_empty_join_detach (os : OS) (t : thread) (w : World) (hE : t.joinable = false) :
    t.join os w
        = (Except.error (Exception.system_error (make_error_code errc.no_such_process)), t, w)
      ∧ t.detach w
        = (Except.error (Exception.system_error (make_error_code errc.no_such_process)), t, w)
      ∧ (t.join os w).2.1.joinable = false
      ∧ (t.detach w).2.1.joinable = false := by
  simp [thread.join, thread.detach, hE]

/-- Witness of C1 on the default-constructed handle. -/
theorem C1_empty_join_detach_witness :
    thread.ctor_default.joinable = false
      ∧ thread.ctor_default.join sampleOS World.initial
        = (Except.error (Exception.system_error (make_error_code errc.no_such_process)),
            thread.ctor_default, World.initial)
      ∧ thread.ctor_default.detach World.initial
        = (Except.error (Exception.system_error (make_error_code errc.no_such_process)),
            thread.ctor_default, World.initial) :=
  ⟨rfl, (C1_empty_join_detach sampleOS thread.ctor_default World.initial rfl).1,
    (C1_empty_join_detach sampleOS thread.ctor_default World.initial rfl).2.1⟩

/-- C2: joining a Joinable handle whose thread identifier is the caller's fails with
`errc::resource_deadlock_would_occur`; the only primitives called are the two identifier
queries (no wait, no release), and the handle keeps its association. -/
theorem C2_self_join (os : OS) (t : thread) (w : World) (hJ : t.joinable = true)
    (hid : os.GetThreadId t.handle_ = os.GetCurrentThreadId) :
    t.join os w
      = (Except.error
          (Exception.system_error (make_error_code errc.resource_deadlock_would_occur)),
         t,
         ⟨w.lastError, w.trace ++ [Event.GetThreadId t.handle_, Event.GetCurrentThreadId]⟩)
      ∧ (t.join os w).2.1.joinable = true
      ∧ (t.join os w).2.1.native_handle = t.native_handle := by
  simp [thread.join, thread.get_id, this_thread.get_id, GetThreadId, GetCurrentThreadId,
    World.log, hJ, hid, thread.native_handle]

/-- Witness of C2: the handle 5 joined by its own thread. -/
theorem C2_self_join_witness :
    (thread.mk 5).join selfOS World.initial
      = (Except.error
          (Exception.system_error (make_error_code errc.resource_deadlock_would_occur)),
         thread.mk 5,
         ⟨0, [Event.GetThreadId 5, Event.GetCurrentThreadId]⟩) :=
  (C2_self_join selfOS (thread.mk 5) World.initial rfl rfl).1

/-- C3, counterexample: move-assigning the Joinable handle 5 into the Joinable handle 7 leaves
the source Joinable, holding the association 7 that the destination had. -/
theorem C3_move_assign_source_not_empty :
    ((thread.mk 7).assign_move (thread.mk 5)).2.joinable = true
      ∧ ((thread.mk 7).assign_move (thread.mk 5)).2.native_handle = 7 := by
  decide

/-- C3, amended: moving `A` into `B` gives `B` the association, the joinable state and the
identifier that `A` had, by move construction and by move assignment alike.  Move construction
leaves `A` Empty; move assignment is a swap and leaves `A` with the association `B` had, so `A`
is Empty afterwards exactly when `B` was Empty before. -/
theorem C3_move (os : OS) (A B : thread) (w : World) :
    ((thread.ctor_move A).2.joinable = false
      ∧ (thread.ctor_move A).1.joinable = A.joinable
      ∧ (thread.ctor_move A).1.native_handle = A.native_handle
      ∧ ((thread.ctor_move A).1.get_id os w).1 = (A.get_id os w).1)
    ∧ ((B.assign_move A).1.joinable = A.joinable
      ∧ (B.assign_move A).1.native_handle = A.native_handle
      ∧ ((B.assign_move A).1.get_id os w).1 = (A.get_id os w).1
      ∧ (B.assign_move A).2.native_handle = B.native_handle
      ∧ (B.assign_move A).2.joinable = B.joinable) := by
  refine ⟨⟨?_, ?_, ?_, ?_⟩, ?_, ?_, ?_, ?_, ?_⟩ <;>
    simp [thread.ctor_move, thread.assign_move, thread.swap, thread.ctor_default,
      thread.joinable, thread.native_handle, thread.get_id, NULL]

/-- C5: a Joinable handle is released exactly once and left Empty by `detach()`, which calls
`CloseHandle` and nothing else, and by a `join()` from another thread whose wait returns
`WAIT_OBJECT_0`; a handle that the spawning constructor returns is Joinable. -/
theorem C5_release_once {Ts σ : Type} (os : OS) (wr : wrapper Ts σ) (t : thread) (w : World)
    (hJ : t.joinable = true) :
    (t.detach w
        = (Except.ok (), thread.mk NULL, ⟨w.lastError, w.trace ++ [Event.CloseHandle t.handle_]⟩)
      ∧ (t.detach w).2.1.joinable = false)
    ∧ (os.GetThreadId t.handle_ ≠ os.GetCurrentThreadId →
        os.WaitForSingleObject t.handle_ = WAIT_OBJECT_0 →
        t.join os w
          = (Except.ok (), thread.mk NULL,
              ⟨w.lastError,
               w.trace ++ [Event.GetThreadId t.handle_, Event.GetCurrentThreadId,
                 Event.WaitForSingleObject t.handle_ INFINITE, Event.CloseHandle t.handle_]⟩)
        ∧ (t.join os w).2.1.joinable = false)
    ∧ (os.CreateThread os.alloc ≠ NULL →
        (thread.ctor_spawn os wr w).1 = Except.ok (thread.mk (os.CreateThread os.alloc))
        ∧ (thread.mk (os.CreateThread os.alloc)).joinable = true) := by
  have hE : (thread.mk NULL).joinable = false := rfl
  refine ⟨?_, ?_, ?_⟩
  · simp [thread.detach, hJ, hE, CloseHandle, World.log]
  · intro hid hw
    simp [thread.join, thread.detach, thread.get_id, this_thread.get_id, GetThreadId,
      GetCurrentThreadId, WaitForSingleObject, CloseHandle, World.log, World.setLastError,
      hJ, hE, hid, hw, WAIT_OBJECT_0, WAIT_FAILED]
  · intro hc
    simp [thread.ctor_spawn, CreateThread, hc, thread.joinable]

/-- Witness of C5: the handle 9 that `sampleOS` hands out, detached and joined. -/
theorem C5_release_once_witness :
    (thread.mk 9).detach World.initial
        = (Except.ok (), thread.mk NULL, ⟨0, [Event.CloseHandle 9]⟩)
      ∧ (thread.mk 9).join sampleOS World.initial
        = (Except.ok (), thread.mk NULL,
            ⟨0, [Event.GetThreadId 9, Event.GetCurrentThreadId,
              Event.WaitForSingleObject 9 INFINITE, Event.CloseHandle 9]⟩)
      ∧ (thread.ctor_spawn sampleOS valueWrapper World.initial).1 = Except.ok (thread.mk 9) :=
  ⟨(C5_release_once sampleOS valueWrapper (thread.mk 9) World.initial rfl).1.1,
    ((C5_release_once sampleOS valueWrapper (thread.mk 9) World.initial rfl).2.1
      (by decide) rfl).1,
    ((C5_release_once sampleOS valueWrapper (thread.mk 9) World.initial rfl).2.2
      (by decide)).1⟩

/-- The `int` that a `DWORD` error code is converted to determines the code. -/
theorem toDWORD_toInt (d : DWORD) : toDWORD (toInt d) = d % 2 ^ 32 := by
  have h : d % 2 ^ 32 < 2 ^ 32 := Nat.mod_lt _ (by norm_num)
  unfold toDWORD toInt
  generalize d % 2 ^ 32 = r at h
  have h32 : (r : Int) < 4294967296 := by exact_mod_cast h
  split
  · have : ((r : Int) % 2 ^ 32) = (r : Int) := by omega
    rw [this]; simp
  · have : (((r : Int) - 2 ^ 32) % 2 ^ 32) = (r : Int) := by omega
    rw [this]; simp

/-- C7: a `join()` of a Joinable handle from another thread waits exactly once, and the wait
result alone decides the outcome: `WAIT_OBJECT_0` gives a normal return (after releasing the
association), `WAIT_FAILED` gives a `system_error` carrying the last-error code of the wait, any
other value gives the `runtime_error`.  In the two failing cases the handle is unchanged and
`CloseHandle` is not called. -/
theorem C7_join_wait_outcome (os : OS) (t : thread) (w : World) (hJ : t.joinable = true)
    (hid : os.GetThreadId t.handle_ ≠ os.GetCurrentThreadId) :
    (os.WaitForSingleObject t.handle_ = WAIT_OBJECT_0 →
        t.join os w
          = (Except.ok (), thread.mk NULL,
              ⟨w.lastError,
               w.trace ++ [Event.GetThreadId t.handle_, Event.GetCurrentThreadId,
                 Event.WaitForSingleObject t.handle_ INFINITE, Event.CloseHandle t.handle_]⟩))
    ∧ (os.WaitForSingleObject t.handle_ = WAIT_FAILED →
        t.join os w
          = (Except.error (Exception.system_error ⟨toInt (os.waitError t.handle_)⟩), t,
              ⟨os.waitError t.handle_,
               w.trace ++ [Event.GetThreadId t.handle_, Event.GetCurrentThreadId,
                 Event.WaitForSingleObject t.handle_ INFINITE, Event.GetLastError]⟩)
        ∧ toDWORD (toInt (os.waitError t.handle_)) = os.waitError t.handle_ % 2 ^ 32
        ∧ (t.join os w).2.1.joinable = true)
    ∧ (os.WaitForSingleObject t.handle_ ≠ WAIT_OBJECT_0 →
        os.WaitForSingleObject t.handle_ ≠ WAIT_FAILED →
        t.join os w
          = (Except.error (Exception.runtime_error "thread: unexpected join result"), t,
              ⟨w.lastError,
               w.trace ++ [Event.GetThreadId t.handle_, Event.GetCurrentThreadId,
                 Event.WaitForSingleObject t.handle_ INFINITE]⟩)
        ∧ (t.join os w).2.1.joinable = true) := by
  refine ⟨?_, ?_, ?_⟩
  · intro hw
    simp [thread.join, thread.detach, thread.get_id, this_thread.get_id, GetThreadId,
      GetCurrentThreadId, WaitForSingleObject, CloseHandle, World.log, World.setLastError,
      hJ, hid, hw, WAIT_OBJECT_0, WAIT_FAILED]
  · intro hw
    simp [thread.join, thread.get_id, this_thread.get_id, GetThreadId,
      GetCurrentThreadId, WaitForSingleObject, GetLastError, World.log, World.setLastError,
      hJ, hid, hw, toDWORD_toInt]
  · intro h0 hF
    simp [thread.join, thread.get_id, this_thread.get_id, GetThreadId,
      GetCurrentThreadId, WaitForSingleObject, World.log, World.setLastError,
      hJ, hid, h0, hF]

/-- Witness of C7: the handle 9 joined from another thread, once with a clean wait, once with a
failed wait and once with a timed-out wait. -/
theorem C7_join_wait_outcome_witness :
    (thread.mk 9).join sampleOS World.initial
        = (Except.ok (), thread.mk NULL,
            ⟨0, [Event.GetThreadId 9, Event.GetCurrentThreadId,
              Event.WaitForSingleObject 9 INFINITE, Event.CloseHandle 9]⟩)
      ∧ (thread.mk 9).join waitFailedOS World.initial
        = (Except.error (Exception.system_error ⟨toInt 6⟩), thread.mk 9,
            ⟨6, [Event.GetThreadId 9, Event.GetCurrentThreadId,
              Event.WaitForSingleObject 9 INFINITE, Event.GetLastError]⟩)
      ∧ (thread.mk 9).join waitTimeoutOS World.initial
        = (Except.error (Exception.runtime_error "thread: unexpected join result"), thread.mk 9,
            ⟨0, [Event.GetThreadId 9, Event.GetCurrentThreadId,
              Event.WaitForSingleObject 9 INFINITE]⟩) :=
  ⟨(C7_join_wait_outcome sampleOS (thread.mk 9) World.initial rfl (by decide)).1 rfl,
    ((C7_join_wait_outcome waitFailedOS (thread.mk 9) World.initial rfl (by decide)).2.1 rfl).1,
    ((C7_join_wait_outcome waitTimeoutOS (thread.mk 9) World.initial rfl (by decide)).2.2
      (by decide) (by decide)).1⟩

/-- C8: the destructor never throws.  On a Joinable handle it calls `TerminateThread` and then
`CloseHandle` on the association, once each, and leaves the handle Empty; on an Empty handle it
calls nothing.  A default-constructed handle, a detached handle, a successfully joined handle
and the source of a move construction are destroyed without any further OS call. -/
theorem C8_destructor (os : OS) (t : thread) (w : World) :
    (t.dtor w).1 = Except.ok ()
    ∧ (t.joinable = true →
        t.dtor w
          = (Except.ok (), thread.mk NULL,
              ⟨w.lastError,
               w.trace ++ [Event.TerminateThread t.handle_ 0, Event.CloseHandle t.handle_]⟩)
        ∧ (t.dtor w).2.1.joinable = false)
    ∧ (t.joinable = false → t.dtor w = (Except.ok (), t, w))
    ∧ thread.ctor_default.dtor w = (Except.ok (), thread.ctor_default, w)
    ∧ (t.joinable = true →
        (t.detach w).2.1.dtor (t.detach w).2.2
          = (Except.ok (), thread.mk NULL,
              ⟨w.lastError, w.trace ++ [Event.CloseHandle t.handle_]⟩))
    ∧ ((t.join os w).1 = Except.ok () →
        (t.join os w).2.1.dtor (t.join os w).2.2 = (Except.ok (), thread.mk NULL, (t.join os w).2.2))
    ∧ (thread.ctor_move t).2.dtor w = (Except.ok (), thread.mk NULL, w) := by
  have hE : (thread.mk NULL).joinable = false := rfl
  refine ⟨?_, ?_, ?_, ?_, ?_, ?_, ?_⟩
  · unfold thread.dtor
    split <;> rfl
  · intro hJ
    simp [thread.dtor, hJ, hE, TerminateThread, CloseHandle, World.log]
  · intro hJ
    simp [thread.dtor, hJ]
  · rfl
  · intro hJ
    simp [thread.dtor, thread.detach, hJ, hE, CloseHandle, World.log]
  · intro hok
    have hh : (t.join os w).2.1 = thread.mk NULL := by
      revert hok
      unfold thread.join thread.detach
      simp only [thread.get_id, this_thread.get_id, GetThreadId, GetCurrentThreadId,
        WaitForSingleObject, GetLastError]
      repeat' split
      all_goals simp
    rw [hh]
    simp [thread.dtor, hE]
  · simp [thread.dtor, thread.ctor_move, thread.swap, thread.ctor_default, hE]

/-- Witness of C8: destroying the Joinable handle 9, and destroying it after `detach()`. -/
theorem C8_destructor_witness :
    (thread.mk 9).dtor World.initial
        = (Except.ok (), thread.mk NULL,
            ⟨0, [Event.TerminateThread 9 0, Event.CloseHandle 9]⟩)
      ∧ ((thread.mk 9).detach World.initial).2.1.dtor ((thread.mk 9).detach World.initial).2.2
        = (Except.ok (), thread.mk NULL, ⟨0, [Event.CloseHandle 9]⟩)
      ∧ thread.ctor_default.dtor World.initial
        = (Except.ok (), thread.ctor_default, World.initial) :=
  ⟨((C8_destructor sampleOS (thread.mk 9) World.initial).2.1 rfl).1,
    (C8_destructor sampleOS (thread.mk 9) World.initial).2.2.2.2.1 rfl,
    (C8_destructor sampleOS thread.ctor_default World.initial).2.2.1 rfl⟩

/-! ## Spawn construction and the closure wrapper -/

/-- When `CreateThread` returns an association, the spawning constructor yields a handle with
exactly that association and does not destroy the wrapper. -/
theorem ctor_spawn_success {Ts σ : Type} (os : OS) (wr : wrapper Ts σ) (w : World)
    (hc : os.CreateThread os.alloc ≠ NULL) :
    thread.ctor_spawn os wr w
      = (Except.ok (thread.mk (os.CreateThread os.alloc)),
          ⟨w.lastError,
           w.trace ++ [Event.new_wrapper os.alloc, Event.CreateThread os.alloc]⟩) := by
  simp [thread.ctor_spawn, CreateThread, World.log, hc]

/-- When `CreateThread` fails, the spawning constructor destroys the wrapper once, constructs no
handle, and throws a `system_error` whose code is the last-error value as it stands after the
wrapper has been destroyed. -/
theorem ctor_spawn_failure {Ts σ : Type} (os : OS) (wr : wrapper Ts σ) (w : World)
    (hc : os.CreateThread os.alloc = NULL) :
    thread.ctor_spawn os wr w
      = (Except.error (Exception.system_error ⟨toInt (wr.destructor os.createError)⟩),
          ⟨wr.destructor os.createError,
           w.trace ++ [Event.new_wrapper os.alloc, Event.CreateThread os.alloc,
             Event.delete_wrapper os.alloc, Event.GetLastError]⟩) := by
  simp [thread.ctor_spawn, CreateThread, GetLastError, World.log, World.setLastError, hc]

/-- C4, at the failing input: `CreateThread` fails with the code 8, the destructor of the
callable clears the last-error value while the wrapper is deleted, and the exception that the
constructor throws carries 0, not 8, because `GetLastError` is read after `delete w`. -/
theorem C4_error_code_read_after_delete :
    thread.ctor_spawn failingOS noisyWrapper World.initial
        = (Except.error (Exception.system_error ⟨0⟩),
            ⟨0, [Event.new_wrapper 100, Event.CreateThread 100, Event.delete_wrapper 100,
              Event.GetLastError]⟩)
      ∧ failingOS.CreateThread failingOS.alloc = NULL
      ∧ failingOS.createError = 8 := by
  refine ⟨?_, rfl, rfl⟩
  rfl

/-- The entry point of a wrapper around a callable returning `void` applies the callable once to
the stored arguments, then destroys the wrapper once, and returns the status code 0. -/
theorem start_routine_void {Ts σ : Type} (f : Ts → σ → σ) (arguments : Ts)
    (destructor : DWORD → DWORD) (c : wrapper.Context Ts σ) :
    wrapper.start_routine ⟨Fn.returns_void f, arguments, destructor⟩ c
      = some (0, ⟨f arguments c.user,
          c.steps ++ [wrapper.Step.apply arguments, wrapper.Step.destroy]⟩) := by
  simp [wrapper.start_routine, wrapper.apply_void, wrapper.unique_ptr_dtor]

/-- C6, at the failing input: for a callable that returns a value (here 5) the entry point does
not exist, because its second branch names the undeclared `t`; nothing invokes the callable,
destroys the wrapper or returns the status code 0. -/
theorem C6_value_callable_has_no_entry_point :
    wrapper.start_routine valueWrapper ⟨10, []⟩ = none := by
  rfl

/-! ## Sleeping -/

/-- A value that the type holds is unchanged by conversion to the type. -/
theorem Rep.cast_of_holds (r : Rep) (x : Int) (h : r.holds x) : r.cast x = x := by
  unfold Rep.holds at h
  unfold Rep.cast
  cases r <;> simp [Rep.min, Rep.max, Rep.is_signed, Rep.bits] at h ⊢ <;> omega

/-- Arithmetic whose exact result the type holds yields that result. -/
theorem Rep.arith_of_holds (r : Rep) (x : Int) (h : r.holds x) : r.arith x = some x := by
  unfold Rep.arith
  split
  · simp [h]
  · rw [Rep.cast_of_holds r x h]

/-- The type in which a conversion to `long long` computes holds every value of the source
representation. -/
theorem CR_holds_of_holds (rep : Rep) (x : Int) (h : rep.holds x) :
    (duration_cast.CR Rep.int64 rep).holds x := by
  unfold Rep.holds at h ⊢
  cases rep <;>
    simp [duration_cast.CR, common_type, Rep.promote, Rep.min, Rep.max, Rep.is_signed,
      Rep.bits] at h ⊢ <;> omega

/-- When neither the count nor its product with `CF::num` leaves the range of `CR`, the cast
yields the count times `CF::num`, divided by `CF::den` with truncation, converted to the target
representation. -/
theorem duration_cast_of_holds (to_rep : Rep) (to_period : ratio) (d : duration) (cf : ratio)
    (hcf : ratio_divide d.period to_period = some cf)
    (h1 : (duration_cast.CR to_rep d.rep).holds d.count)
    (h2 : (duration_cast.CR to_rep d.rep).holds (d.count * (cf.num : Int))) :
    duration_cast to_rep to_period d
      = some ⟨to_rep, to_period,
          to_rep.cast (Int.tdiv (d.count * (cf.num : Int)) (cf.den : Int))⟩ := by
  unfold duration_cast
  rw [hcf]
  simp only
  rw [Rep.cast_of_holds _ _ h1, Rep.arith_of_holds _ _ h2]
  by_cases hn : cf.num = 1 <;> by_cases hd : cf.den = 1 <;> simp [hn, hd]

/-- The terms of a well-formed quotient of ratios. -/
theorem ratio_divide_eq_some (p q cf : ratio) (h : ratio_divide p q = some cf) :
    0 < p.den * q.num
      ∧ cf.num = p.num * q.den / Nat.gcd (p.num * q.den) (p.den * q.num)
      ∧ cf.den = p.den * q.num / Nat.gcd (p.num * q.den) (p.den * q.num) := by
  unfold ratio_divide at h
  simp only at h
  split at h
  · exact absurd h (by simp)
  · rename_i hne
    have hcf : cf = ⟨p.num * q.den / Nat.gcd (p.num * q.den) (p.den * q.num),
        p.den * q.num / Nat.gcd (p.num * q.den) (p.den * q.num)⟩ := by
      simpa using h.symm
    refine ⟨?_, ?_, ?_⟩
    · have : p.den * q.num ≠ 0 := fun h0 => hne (Or.inl h0)
      omega
    · rw [hcf]
    · rw [hcf]

/-- Multiplying by `CF::num` and dividing by `CF::den` is multiplying and dividing by the terms
of the unreduced quotient. -/
theorem ratio_divide_mul_div (p q cf : ratio) (h : ratio_divide p q = some cf) (m : Nat) :
    m * cf.num / cf.den = m * (p.num * q.den) / (p.den * q.num) := by
  obtain ⟨hpos, hn, hd⟩ := ratio_divide_eq_some p q cf h
  rw [hn, hd]
  have hg : 0 < Nat.gcd (p.num * q.den) (p.den * q.num) := Nat.gcd_pos_of_pos_right _ hpos
  have hA : Nat.gcd (p.num * q.den) (p.den * q.num) ∣ p.num * q.den := Nat.gcd_dvd_left _ _
  have hB : Nat.gcd (p.num * q.den) (p.den * q.num) ∣ p.den * q.num := Nat.gcd_dvd_right _ _
  generalize Nat.gcd (p.num * q.den) (p.den * q.num) = g at hg hA hB
  generalize p.num * q.den = A at hA
  generalize p.den * q.num = B at hB
  obtain ⟨a, rfl⟩ := hA
  obtain ⟨b, rfl⟩ := hB
  rw [Nat.mul_div_cancel_left _ hg, Nat.mul_div_cancel_left _ hg]
  have : m * (g * a) = g * (m * a) := by ring
  rw [this, Nat.mul_div_mul_left _ _ hg]

/-- Unsigned arithmetic in `duration_cast` wraps around: 4000000000 ticks of
`ratio<8000000007, 8000000009000>` held in `unsigned long long`, about 3999999999 ms, make
`sleep_for` call `Sleep(1694156992)`. -/
theorem sleep_for_unsigned_wraps :
    sleep_for ⟨Rep.uint64, ⟨8000000007, 8000000009000⟩, 4000000000⟩ World.initial
      = some (Except.ok (), ⟨0, [Event.Sleep 1694156992]⟩) := by
  set_option maxRecDepth 100000 in rfl

/-- The millisecond count is narrowed to the `DWORD` argument of `Sleep`: a duration of `2^32`
milliseconds makes `sleep_for` call `Sleep(0)`. -/
theorem sleep_for_narrows_count :
    sleep_for ⟨Rep.int64, milli, 2 ^ 32⟩ World.initial
      = some (Except.ok (), ⟨0, [Event.Sleep 0]⟩) := by
  set_option maxRecDepth 100000 in rfl

/-- Signed overflow in `duration_cast` is undefined behaviour: minus `2^62` hours held in
`long long` give `sleep_for` no defined outcome. -/
theorem sleep_for_signed_overflow_undefined :
    sleep_for ⟨Rep.int64, ⟨3600, 1⟩, -(2 ^ 62)⟩ World.initial = none := by
  set_option maxRecDepth 100000 in rfl

/-- C9, counterexample: for the duration of 1500 microseconds `sleep_for` calls `Sleep(1)`, and
one millisecond is shorter than the duration. -/
theorem C9_sleep_shorter_than_duration :
    sleep_for ⟨Rep.int64, micro, 1500⟩ World.initial
        = some (Except.ok (), ⟨0, [Event.Sleep 1]⟩)
      ∧ (1 : ℚ) < duration.ms ⟨Rep.int64, micro, 1500⟩ := by
  constructor
  · rfl
  · norm_num [duration.ms, micro]

/-- C9, amended: for a non-negative duration of integral representation that is shorter than
`2^32` milliseconds and whose conversion to milliseconds is well-formed and does not overflow
the arithmetic of `duration_cast`, `sleep_for` calls `Sleep` exactly once, with the duration
rounded down to whole milliseconds: the count is at most the duration and misses it by less than
one millisecond, and it reaches the duration exactly when the duration is a whole number of
milliseconds. -/
theorem C9_sleep_for_rounds_down (d : duration) (cf : ratio) (w : World)
    (hwf : d.wf) (hc : 0 ≤ d.count) (hcf : ratio_divide d.period milli = some cf)
    (hfit : (duration_cast.CR Rep.int64 d.rep).holds (d.count * (cf.num : Int)))
    (hlt : d.ms < 2 ^ 32) :
    sleep_for d w = some (Except.ok (), ⟨w.lastError, w.trace ++ [Event.Sleep ⌊d.ms⌋₊]⟩)
      ∧ ((⌊d.ms⌋₊ : Nat) : ℚ) ≤ d.ms
      ∧ d.ms < ((⌊d.ms⌋₊ : Nat) : ℚ) + 1
      ∧ (d.ms ≤ ((⌊d.ms⌋₊ : Nat) : ℚ) ↔ ∃ m : Nat, d.ms = (m : ℚ)) := by
  have hms : 0 ≤ d.ms := by
    unfold duration.ms
    have : (0 : ℚ) ≤ (d.count : ℚ) := by exact_mod_cast hc
    positivity
  have hfl : ((⌊d.ms⌋₊ : Nat) : ℚ) ≤ d.ms := Nat.floor_le hms
  have hk : ⌊d.ms⌋₊ < 2 ^ 32 := by
    have : ((⌊d.ms⌋₊ : Nat) : ℚ) < ((2 ^ 32 : Nat) : ℚ) := by
      push_cast
      exact lt_of_le_of_lt hfl hlt
    exact_mod_cast this
  refine ⟨?_, hfl, Nat.lt_floor_add_one _, ?_⟩
  · obtain ⟨n, hn⟩ := Int.eq_ofNat_of_zero_le hc
    have h1 := CR_holds_of_holds d.rep d.count hwf.2
    have hcast := duration_cast_of_holds Rep.int64 milli d cf hcf h1 hfit
    have hfloor : ⌊d.ms⌋₊ = n * (d.period.num * 1000) / d.period.den := by
      have : d.ms = ((n * (d.period.num * 1000) : Nat) : ℚ) / (d.period.den : ℚ) := by
        unfold duration.ms
        rw [hn]
        push_cast
        ring
      rw [this, Nat.floor_div_eq_div]
    have hdiv := ratio_divide_mul_div d.period milli cf hcf n
    simp only [milli, Nat.mul_one] at hdiv
    have hq : Int.tdiv (d.count * (cf.num : Int)) (cf.den : Int) = ((⌊d.ms⌋₊ : Nat) : Int) := by
      rw [hn, hfloor, ← hdiv, ← Int.natCast_mul, ← Int.ofNat_tdiv]
    have h32 : ((⌊d.ms⌋₊ : Nat) : Int) < 4294967296 := by exact_mod_cast hk
    have hholds : Rep.int64.holds ((⌊d.ms⌋₊ : Nat) : Int) := by
      unfold Rep.holds
      simp [Rep.min, Rep.max, Rep.is_signed, Rep.bits]
      constructor <;> omega
    rw [hq, Rep.cast_of_holds _ _ hholds] at hcast
    have hdw : toDWORD ((⌊d.ms⌋₊ : Nat) : Int) = ⌊d.ms⌋₊ := by
      unfold toDWORD
      have : ((⌊d.ms⌋₊ : Nat) : Int) % 2 ^ 32 = ((⌊d.ms⌋₊ : Nat) : Int) := by omega
      rw [this]
      simp
    unfold sleep_for to_milliseconds
    rw [hcast]
    simp [hdw, Sleep, World.log]
  · constructor
    · intro h
      exact ⟨⌊d.ms⌋₊, le_antisymm h hfl⟩
    · rintro ⟨m, hm⟩
      rw [hm, Nat.floor_natCast]

/-- Witness of C9: the duration of 1500 microseconds. -/
theorem C9_sleep_for_rounds_down_witness :
    sleep_for ⟨Rep.int64, micro, 1500⟩ World.initial
        = some (Except.ok (), ⟨0, [Event.Sleep ⌊duration.ms ⟨Rep.int64, micro, 1500⟩⌋₊]⟩)
      ∧ duration.ms ⟨Rep.int64, micro, 1500⟩
        < ((⌊duration.ms ⟨Rep.int64, micro, 1500⟩⌋₊ : Nat) : ℚ) + 1 :=
  ⟨(C9_sleep_for_rounds_down ⟨Rep.int64, micro, 1500⟩ ⟨1, 1000⟩ World.initial
      (by decide) (by decide) rfl (by decide)
      (by norm_num [duration.ms, micro])).1,
    (C9_sleep_for_rounds_down ⟨Rep.int64, micro, 1500⟩ ⟨1, 1000⟩ World.initial
      (by decide) (by decide) rfl (by decide)
      (by norm_num [duration.ms, micro])).2.2.1⟩

end win
